import Mathlib

/-!
Shallow embedding of the spotapi metadata service:
the public resource classes of src/spotapi/spotify.py (PublicTrack,
PublicAlbum, PublicPlaylist), the Flask handlers of src/main.py, the
Spotify-URL id extraction, the pagination generators and the TTL cache
front. External collaborators (the TLS transport, the persisted-query
hash resolver, Flask routing data and the cachetools cache) are either
parameters of the definitions or modelled where noted.
-/

/-- JSON values as returned by the upstream GraphQL endpoint.
A Python dict is the `mapping` constructor. -/
inductive JsonV where
  | null : JsonV
  | bool (b : Bool) : JsonV
  | num (n : Int) : JsonV
  | str (s : String) : JsonV
  | arr (xs : List JsonV) : JsonV
  | mapping (kvs : List (String × JsonV)) : JsonV

/-- Whether a JSON value is a mapping, i.e. passes the
`isinstance(resp.response, Mapping)` check of spotify.py. -/
def isMapping : JsonV → Bool
  | .mapping _ => true
  | _ => false

/-- One POST request issued through the transport
(`self.base.client.post(url, params=params, authenticate=True)`).
The JSON-encoded `variables` dict is represented structurally:
`uri`, and the optional `limit` / `offset` / `locale` entries. -/
structure PostRequest where
  url : String
  operationName : String
  uri : String
  sha256Hash : String
  limit : Option Int := none
  offset : Option Int := none
  locale : Option String := none
deriving DecidableEq

/-- The transport response object: `resp.fail`, `resp.error.string`
(only meaningful when `fail` is true) and the parsed payload
`resp.response`. The transport itself (TLSClient with auto retries) is an
external collaborator and is passed in as a function
`PostRequest → TransportResponse`. -/
structure TransportResponse where
  fail : Bool
  errorString : String
  response : JsonV

/-- The Python exceptions that the embedded code can raise.
`valueError` is the ValidationError of the spec (`ValueError("... ID not
set")`); `attributeError` is what Python raises when a slotted attribute
was never assigned; the three resource errors carry the message and the
optional `error=` keyword; `otherError` stands for unclassified runtime
errors such as KeyError. -/
inductive PyErr where
  | attributeError (msg : String) : PyErr
  | valueError (msg : String) : PyErr
  | trackError (msg : String) (error : Option String) : PyErr
  | albumError (msg : String) (error : Option String) : PyErr
  | playlistError (msg : String) (error : Option String) : PyErr
  | otherError (msg : String) : PyErr
deriving DecidableEq

/-- `str(e)` for the embedded exceptions: the exception message
(`ParentException.__init__` passes only `message` to `Exception`). -/
def pyErrStr : PyErr → String
  | .attributeError m => m
  | .valueError m => m
  | .trackError m _ => m
  | .albumError m _ => m
  | .playlistError m _ => m
  | .otherError m => m

/-- Whether an exception is the ValidationError of the spec taxonomy
(an unset-ID `ValueError`). -/
def isValidationError : PyErr → Bool
  | .valueError _ => true
  | _ => false

/-- The character class of the regex `[a-zA-Z0-9]`. -/
def isAlnumChar (c : Char) : Bool :=
  (decide ('a' ≤ c) && decide (c ≤ 'z'))
    || (decide ('A' ≤ c) && decide (c ≤ 'Z'))
    || (decide ('0' ≤ c) && decide (c ≤ '9'))

/-- Substring test, the Python `sub in s` operator on strings. -/
def containsSub (sub : List Char) : List Char → Bool
  | [] => sub.isEmpty
  | c :: rest => sub.isPrefixOf (c :: rest) || containsSub sub rest

/-- The suffix of `cs` after the last occurrence of `sep`; `cs` itself
when `sep` does not occur. This is `cs.split(sep)[-1]` of Python for the
separators used here (`"track/"`, `"album/"`, `"playlist/"`), which have
no nontrivial border and therefore cannot overlap themselves. -/
def afterLastSep (sep : List Char) : List Char → List Char
  | [] => []
  | c :: rest =>
    if containsSub sep rest then afterLastSep sep rest
    else if sep.isPrefixOf (c :: rest) then (c :: rest).drop sep.length
    else c :: rest

/-- Attempt of the regex `<literal>([a-zA-Z0-9]{22})` at the current
position: the literal part must be a prefix here, followed by at least 22
alphanumeric characters; the capture is those 22 characters. -/
def matchAt (lit : List Char) (cs : List Char) : Option (List Char) :=
  if lit.isPrefixOf cs then
    let cap := (cs.drop lit.length).take 22
    if cap.length = 22 && cap.all isAlnumChar then some cap else none
  else none

/-- `re.search` for the patterns of extract_spotify_id: try the pattern
at every position from the left and return the first capture. -/
def searchCapture (lit : List Char) : List Char → Option (List Char)
  | [] => matchAt lit []
  | c :: rest =>
    match matchAt lit (c :: rest) with
    | some cap => some cap
    | none => searchCapture lit rest

/-- The literal part of the pattern `spotify\.com/track/([a-zA-Z0-9]{22})`. -/
def trackPat : List Char := "spotify.com/track/".data

/-- The literal part of the pattern `spotify\.com/album/([a-zA-Z0-9]{22})`. -/
def albumPat : List Char := "spotify.com/album/".data

/-- The literal part of the pattern `spotify\.com/playlist/([a-zA-Z0-9]{22})`. -/
def playlistPat : List Char := "spotify.com/playlist/".data

/-- extract_spotify_id of main.py on the character list: the three
patterns are tried in order track, album, playlist; the first capture is
returned; when none matches the input is returned unchanged. -/
def extractListId (cs : List Char) : List Char :=
  match searchCapture trackPat cs with
  | some cap => cap
  | none =>
    match searchCapture albumPat cs with
    | some cap => cap
    | none =>
      match searchCapture playlistPat cs with
      | some cap => cap
      | none => cs

/-- extract_spotify_id of main.py. -/
def extract_spotify_id (url : String) : String :=
  String.mk (extractListId url.data)

/-! ## Resource classes: constructor identifier logic -/

/-- The identifier stored by `PublicTrack.__init__` for a (truthy or
falsy) string argument. The class uses `__slots__`, so when the argument
is falsy (`None` or the empty string, modelled as `""`) the `track_id`
attribute is never assigned, modelled as `none`. Otherwise
`track_id = track.split("track/")[-1] if "track" in track else track`. -/
def publicTrackId (track : String) : Option String :=
  if track = "" then none
  else some (if containsSub "track".data track.data
    then String.mk (afterLastSep "track/".data track.data) else track)

/-- The identifier stored by `PublicAlbum.__init__`; same shape as
`publicTrackId` with the `"album"` substring test and `"album/"` split. -/
def publicAlbumId (album : String) : Option String :=
  if album = "" then none
  else some (if containsSub "album".data album.data
    then String.mk (afterLastSep "album/".data album.data) else album)

/-- The identifier stored by `PublicPlaylist.__init__`; same shape with
`"playlist"` / `"playlist/"`. -/
def publicPlaylistId (playlist : String) : Option String :=
  if playlist = "" then none
  else some (if containsSub "playlist".data playlist.data
    then String.mk (afterLastSep "playlist/".data playlist.data) else playlist)

/-! ## Resource fetch operations -/

/-- The partner GraphQL endpoint used by all three fetches. -/
def pathfinderUrl : String := "https://api-partner.spotify.com/pathfinder/v1/query"

/-- The request built by `PublicTrack.get_track_info`: operation
`getTrack`, variables hold only the track URI, extensions hold the
persisted-query hash resolved by `self.base.part_hash("getTrack")`
(the hash resolver is the external parameter `ph`). -/
def trackRequest (tid : String) (ph : String → String) : PostRequest :=
  { url := pathfinderUrl, operationName := "getTrack",
    uri := "spotify:track:" ++ tid, sha256Hash := ph "getTrack" }

/-- The request built by `PublicAlbum.get_album_info`: operation
`getAlbum`, variables hold uri, offset, limit and locale. -/
def albumRequest (aid : String) (limit offset : Int) (locale : String)
    (ph : String → String) : PostRequest :=
  { url := pathfinderUrl, operationName := "getAlbum",
    uri := "spotify:album:" ++ aid, sha256Hash := ph "getAlbum",
    limit := some limit, offset := some offset, locale := some locale }

/-- The request built by `PublicPlaylist.get_playlist_info`: operation
`fetchPlaylist`, variables hold uri, offset and limit. -/
def playlistRequest (pid : String) (limit offset : Int)
    (ph : String → String) : PostRequest :=
  { url := pathfinderUrl, operationName := "fetchPlaylist",
    uri := "spotify:playlist:" ++ pid, sha256Hash := ph "fetchPlaylist",
    limit := some limit, offset := some offset }

/-- `PublicTrack.get_track_info`. Returns the outcome (payload mapping or
raised exception) together with the list of transport calls issued.
An unassigned `track_id` slot raises AttributeError on the
`if not self.track_id` read; an empty `track_id` raises
`ValueError("Track ID not set")`; then the POST is issued and classified:
`resp.fail` raises `TrackError("Could not get track info",
error=resp.error.string)`, a non-mapping payload raises
`TrackError("Invalid JSON")`, otherwise the payload is returned. -/
def get_track_info (track_id : Option String) (ph : String → String)
    (post : PostRequest → TransportResponse) :
    Except PyErr JsonV × List PostRequest :=
  match track_id with
  | none => (.error (.attributeError "PublicTrack object has no attribute track_id"), [])
  | some tid =>
    if tid = "" then (.error (.valueError "Track ID not set"), [])
    else
      let req := trackRequest tid ph
      let resp := post req
      if resp.fail then
        (.error (.trackError "Could not get track info" (some resp.errorString)), [req])
      else
        match resp.response with
        | .mapping kvs => (.ok (.mapping kvs), [req])
        | _ => (.error (.trackError "Invalid JSON" none), [req])

/-- `PublicAlbum.get_album_info`, same structure with limit, offset and
locale in the variables and `AlbumError`. -/
def get_album_info (album_id : Option String) (limit offset : Int)
    (locale : String) (ph : String → String)
    (post : PostRequest → TransportResponse) :
    Except PyErr JsonV × List PostRequest :=
  match album_id with
  | none => (.error (.attributeError "PublicAlbum object has no attribute album_id"), [])
  | some aid =>
    if aid = "" then (.error (.valueError "Album ID not set"), [])
    else
      let req := albumRequest aid limit offset locale ph
      let resp := post req
      if resp.fail then
        (.error (.albumError "Could not get album info" (some resp.errorString)), [req])
      else
        match resp.response with
        | .mapping kvs => (.ok (.mapping kvs), [req])
        | _ => (.error (.albumError "Invalid JSON" none), [req])

/-- `PublicPlaylist.get_playlist_info`, same structure with limit and
offset in the variables and `PlaylistError`. -/
def get_playlist_info (playlist_id : Option String) (limit offset : Int)
    (ph : String → String) (post : PostRequest → TransportResponse) :
    Except PyErr JsonV × List PostRequest :=
  match playlist_id with
  | none => (.error (.attributeError "PublicPlaylist object has no attribute playlist_id"), [])
  | some pid =>
    if pid = "" then (.error (.valueError "Playlist ID not set"), [])
    else
      let req := playlistRequest pid limit offset ph
      let resp := post req
      if resp.fail then
        (.error (.playlistError "Could not get playlist info" (some resp.errorString)), [req])
      else
        match resp.response with
        | .mapping kvs => (.ok (.mapping kvs), [req])
        | _ => (.error (.playlistError "Invalid JSON" none), [req])

/-! ## Pagination generators -/

/-- One yielded chunk of a pagination run: the nested collection mapping
(`album["data"]["albumUnion"]["tracks"]` respectively
`playlist["data"]["playlistV2"]["content"]`), abstracted to its
`totalCount` field and its `items` collection. -/
structure Chunk where
  totalCount : Int
  items : List JsonV

/-- The while loop of the generators:
`while offset < total_count: yield fetch(offset); offset += UPPER_LIMIT`.
`fetch off` abstracts a successful `get_*_info(limit=UPPER_LIMIT,
offset=off)` call followed by the projection to the nested collection.
The trace records the offset passed to each fetch together with the chunk
yielded for it. -/
def loopTrace (fetch : Int → Chunk) (ul : Int) (hul : 0 < ul)
    (tc : Int) (offset : Int) : List (Int × Chunk) :=
  if _h : offset < tc then
    (offset, fetch offset) :: loopTrace fetch ul hul tc (offset + ul)
  else []
termination_by (tc - offset).toNat
decreasing_by omega

/-- Full pagination run of `paginate_album_tracks` /
`paginate_playlist`: the first fetch at the default offset 0 is issued
and its chunk yielded unconditionally; the generator returns immediately
when `total_count <= UPPER_LIMIT`, otherwise the loop continues from
`offset = UPPER_LIMIT`. -/
def paginateTrace (fetch : Int → Chunk) (ul : Int) (hul : 0 < ul) :
    List (Int × Chunk) :=
  if (fetch 0).totalCount ≤ ul then [(0, fetch 0)]
  else (0, fetch 0) :: loopTrace fetch ul hul (fetch 0).totalCount ul

/-- `PublicAlbum.paginate_album_tracks` with its `UPPER_LIMIT = 50`. -/
def paginate_album_tracks (fetch : Int → Chunk) : List (Int × Chunk) :=
  paginateTrace fetch 50 (by norm_num)

/-- `PublicPlaylist.paginate_playlist` with its `UPPER_LIMIT = 343`. -/
def paginate_playlist (fetch : Int → Chunk) : List (Int × Chunk) :=
  paginateTrace fetch 343 (by norm_num)

/-- A model upstream for a collection of `tc` items served in pages of at
most `ul`: the chunk at `offset` carries `min ul (tc - offset)` items
(the items are their global indices) and reports the full `totalCount`. -/
def stdFetch (tc ul : Int) : Int → Chunk :=
  fun off => ⟨tc, (List.range (min ul (tc - off)).toNat).map (fun i => JsonV.num (off + i))⟩

/-! ## JSON dictionary access used by the handlers -/

/-- Lookup of a key in a JSON mapping (`d[k]` read). -/
def mapGet (kvs : List (String × JsonV)) (k : String) : Option JsonV :=
  match kvs.find? (fun p => p.1 == k) with
  | some p => some p.2
  | none => none

/-- Assignment of a key in a JSON mapping (`d[k] = v`): replaces the
first binding of `k`, or appends one (dict assignment creates the key). -/
def mapSet : List (String × JsonV) → String → JsonV → List (String × JsonV)
  | [], k, v => [(k, v)]
  | (k0, v0) :: rest, k, v =>
    if k0 == k then (k0, v) :: rest else (k0, v0) :: mapSet rest k v

/-- Chained subscript read `j[k1][k2]...`; `none` is Python's KeyError /
TypeError on the way down. -/
def digPath : JsonV → List String → Option JsonV
  | j, [] => some j
  | .mapping kvs, k :: ks =>
    match mapGet kvs k with
    | some v => digPath v ks
    | none => none
  | _, _ :: _ => none

/-- Chained subscript write `j[k1]...[kn] = v`: every key on the way must
exist (else KeyError, `none`), except the last, which dict assignment
creates or replaces. -/
def setPath : JsonV → List String → JsonV → Option JsonV
  | .mapping kvs, [k], v => some (.mapping (mapSet kvs k v))
  | .mapping kvs, k :: k2 :: ks, v =>
    match mapGet kvs k with
    | some w =>
      match setPath w (k2 :: ks) v with
      | some w2 => some (.mapping (mapSet kvs k w2))
      | none => none
    | none => none
  | _, _, _ => none

/-- Reads of the nested collection of an album / playlist response used
by the pagination branch of the handlers: dig to `path`, then read the
collection's `totalCount` (an integer) and its `items` list.
`none` is the KeyError / type error Python would raise. -/
def chunkFieldsAt (j : JsonV) (path : List String) : Option (Int × List JsonV) :=
  match digPath j path with
  | some (.mapping kvs) =>
    match mapGet kvs "totalCount", mapGet kvs "items" with
    | some (.num n), some (.arr xs) => some (n, xs)
    | _, _ => none
  | _ => none

/-! ## Flask handlers of main.py -/

/-- The body `jsonify({'error': str(e)})` of the except branches. -/
def errorJson (e : PyErr) : JsonV :=
  .mapping [("error", .str (pyErrStr e))]

/-- Result of one route handler call: HTTP status, JSON body, and the
trace of transport requests issued while producing it. -/
structure HandlerOut where
  status : Nat
  body : JsonV
  reqs : List PostRequest

/-- The subset of `app.config` the handlers read. The handlers call
`app.config.get('limit', d)`, `app.config.get('offset', 0)` and
`app.config.get('locale', 'en')`; a `none` field means the key is absent
and the default is used. -/
structure FlaskConfig where
  limit : Option Int := none
  offset : Option Int := none
  locale : Option String := none

/-- Modelled from the spec and the Flask runtime: the application never
writes `app.config`, and Flask's default configuration contains no
`limit`, `offset` or `locale` keys, so at runtime every
`app.config.get(key, default)` in the handlers returns the default. -/
def runtimeConfig : FlaskConfig := {}

/-- `/track/<path:track_input>` handler body (`get_track_metadata`):
extract the id, construct `PublicTrack`, fetch; any exception is caught
and serialized as `jsonify({'error': str(e)}), 404`. -/
def get_track_metadata (track_input : String) (ph : String → String)
    (post : PostRequest → TransportResponse) : HandlerOut :=
  match get_track_info (publicTrackId (extract_spotify_id track_input)) ph post with
  | (.ok d, reqs) => ⟨200, d, reqs⟩
  | (.error e, reqs) => ⟨404, errorJson e, reqs⟩

/-- The `for tracks_chunk in album.paginate_album_tracks(...)` loop of
the `limit == -1` branch, from `offset = UPPER_LIMIT` on: each iteration
fetches one page, projects the nested collection and extends the item
accumulator; a raised error aborts and propagates. The request trace is
accumulated alongside. -/
def albumPagLoop (aid : Option String) (locale : String) (ph : String → String)
    (post : PostRequest → TransportResponse) (tc : Int) (offset : Int) :
    Except PyErr (List JsonV) × List PostRequest :=
  if _h : offset < tc then
    match get_album_info aid 50 offset locale ph post with
    | (.error e, reqs) => (.error e, reqs)
    | (.ok j, reqs) =>
      match chunkFieldsAt j ["data", "albumUnion", "tracks"] with
      | none => (.error (.otherError "KeyError"), reqs)
      | some (_, xs) =>
        match albumPagLoop aid locale ph post tc (offset + 50) with
        | (.error e, reqs2) => (.error e, reqs ++ reqs2)
        | (.ok ys, reqs2) => (.ok (xs ++ ys), reqs ++ reqs2)
  else (.ok [], [])
termination_by (tc - offset).toNat
decreasing_by omega

/-- The whole `album.paginate_album_tracks(locale)` consumption of the
`limit == -1` branch: first fetch at offset 0 (limit `UPPER_LIMIT = 50`),
read `totalCount` from the nested collection, accumulate the first
chunk's items, stop if `totalCount <= 50`, else continue from offset 50. -/
def albumPaginateAll (aid : Option String) (locale : String)
    (ph : String → String) (post : PostRequest → TransportResponse) :
    Except PyErr (List JsonV) × List PostRequest :=
  match get_album_info aid 50 0 locale ph post with
  | (.error e, reqs) => (.error e, reqs)
  | (.ok j, reqs) =>
    match chunkFieldsAt j ["data", "albumUnion", "tracks"] with
    | none => (.error (.otherError "KeyError"), reqs)
    | some (tc, xs) =>
      if tc ≤ 50 then (.ok xs, reqs)
      else
        match albumPagLoop aid locale ph post tc 50 with
        | (.error e, reqs2) => (.error e, reqs ++ reqs2)
        | (.ok ys, reqs2) => (.ok (xs ++ ys), reqs ++ reqs2)

/-- `album_info['data']['albumUnion']['tracks']['items'] = all_tracks`
followed by `...['totalCount'] = len(all_tracks)`. -/
def setAlbumTracks (info : JsonV) (xs : List JsonV) : Option JsonV :=
  match setPath info ["data", "albumUnion", "tracks", "items"] (.arr xs) with
  | some j => setPath j ["data", "albumUnion", "tracks", "totalCount"] (.num xs.length)
  | none => none

/-- `/album/<path:album_input>` handler body (`get_album_metadata`).
`limit`, `offset` and `locale` are read from `app.config` (not from the
request's query string: `args` is the incoming query string, which the
source never consults), with defaults 50 / 0 / 'en'. `limit == -1` runs
the pagination branch and splices the accumulated items into a fresh
envelope; otherwise one fetch with the configured limit and offset.
Any exception is caught and serialized as 404. -/
def get_album_metadata (album_input : String) (args : List (String × String))
    (cfg : FlaskConfig) (ph : String → String)
    (post : PostRequest → TransportResponse) : HandlerOut :=
  let aid := publicAlbumId (extract_spotify_id album_input)
  let limit : Int := cfg.limit.getD 50
  let offset : Int := cfg.offset.getD 0
  let locale : String := cfg.locale.getD "en"
  if limit = -1 then
    match albumPaginateAll aid locale ph post with
    | (.error e, reqs) => ⟨404, errorJson e, reqs⟩
    | (.ok allTracks, reqs) =>
      match get_album_info aid 50 0 locale ph post with
      | (.error e, reqs2) => ⟨404, errorJson e, reqs ++ reqs2⟩
      | (.ok info, reqs2) =>
        match setAlbumTracks info allTracks with
        | some info2 => ⟨200, info2, reqs ++ reqs2⟩
        | none => ⟨404, errorJson (.otherError "KeyError"), reqs ++ reqs2⟩
  else
    match get_album_info aid limit offset locale ph post with
    | (.ok d, reqs) => ⟨200, d, reqs⟩
    | (.error e, reqs) => ⟨404, errorJson e, reqs⟩

/-- The pagination loop of the playlist `limit == -1` branch, page size
`UPPER_LIMIT = 343`, collection path `data.playlistV2.content`. -/
def playlistPagLoop (pid : Option String) (ph : String → String)
    (post : PostRequest → TransportResponse) (tc : Int) (offset : Int) :
    Except PyErr (List JsonV) × List PostRequest :=
  if _h : offset < tc then
    match get_playlist_info pid 343 offset ph post with
    | (.error e, reqs) => (.error e, reqs)
    | (.ok j, reqs) =>
      match chunkFieldsAt j ["data", "playlistV2", "content"] with
      | none => (.error (.otherError "KeyError"), reqs)
      | some (_, xs) =>
        match playlistPagLoop pid ph post tc (offset + 343) with
        | (.error e, reqs2) => (.error e, reqs ++ reqs2)
        | (.ok ys, reqs2) => (.ok (xs ++ ys), reqs ++ reqs2)
  else (.ok [], [])
termination_by (tc - offset).toNat
decreasing_by omega

/-- The whole `playlist.paginate_playlist()` consumption of the playlist
`limit == -1` branch. -/
def playlistPaginateAll (pid : Option String) (ph : String → String)
    (post : PostRequest → TransportResponse) :
    Except PyErr (List JsonV) × List PostRequest :=
  match get_playlist_info pid 343 0 ph post with
  | (.error e, reqs) => (.error e, reqs)
  | (.ok j, reqs) =>
    match chunkFieldsAt j ["data", "playlistV2", "content"] with
    | none => (.error (.otherError "KeyError"), reqs)
    | some (tc, xs) =>
      if tc ≤ 343 then (.ok xs, reqs)
      else
        match playlistPagLoop pid ph post tc 343 with
        | (.error e, reqs2) => (.error e, reqs ++ reqs2)
        | (.ok ys, reqs2) => (.ok (xs ++ ys), reqs ++ reqs2)

/-- `playlist_info['data']['playlistV2']['content']['items'] = all_tracks`
followed by `...['totalCount'] = len(all_tracks)`. -/
def setPlaylistItems (info : JsonV) (xs : List JsonV) : Option JsonV :=
  match setPath info ["data", "playlistV2", "content", "items"] (.arr xs) with
  | some j => setPath j ["data", "playlistV2", "content", "totalCount"] (.num xs.length)
  | none => none

/-- `/playlist/<path:playlist_input>` handler body
(`get_playlist_metadata`); like the album handler with config default
limit 343, no locale, page size 343 and envelope
`get_playlist_info(limit=343)`. -/
def get_playlist_metadata (playlist_input : String) (args : List (String × String))
    (cfg : FlaskConfig) (ph : String → String)
    (post : PostRequest → TransportResponse) : HandlerOut :=
  let pid := publicPlaylistId (extract_spotify_id playlist_input)
  let limit : Int := cfg.limit.getD 343
  let offset : Int := cfg.offset.getD 0
  if limit = -1 then
    match playlistPaginateAll pid ph post with
    | (.error e, reqs) => ⟨404, errorJson e, reqs⟩
    | (.ok allTracks, reqs) =>
      match get_playlist_info pid 343 0 ph post with
      | (.error e, reqs2) => ⟨404, errorJson e, reqs ++ reqs2⟩
      | (.ok info, reqs2) =>
        match setPlaylistItems info allTracks with
        | some info2 => ⟨200, info2, reqs ++ reqs2⟩
        | none => ⟨404, errorJson (.otherError "KeyError"), reqs ++ reqs2⟩
  else
    match get_playlist_info pid limit offset ph post with
    | (.ok d, reqs) => ⟨200, d, reqs⟩
    | (.error e, reqs) => ⟨404, errorJson e, reqs⟩

/-! ## The metadata cache -/

/-- Modelled from the spec: one entry of the MetadataCache (§3
CacheEntry); the cachetools.TTLCache backing `metadata_cache` is not part
of this repository. -/
structure CacheEntry (V : Type) where
  key : String
  val : V
  expiresAt : Nat

/-- Modelled from the spec: lazy purge of entries past `expiresAt`
(§3 CacheEntry lifecycle). -/
def purgeExpired (now : Nat) (st : List (CacheEntry V)) : List (CacheEntry V) :=
  st.filter (fun e => decide (now < e.expiresAt))

/-- Modelled from the spec: evict oldest entries so that one more entry
fits within `maxsize` (§4.5, eviction of the oldest entry when the entry
count would exceed the configured maximum). Entries are kept in insertion
order, oldest first. -/
def evictToFit (maxsize : Nat) (st : List (CacheEntry V)) : List (CacheEntry V) :=
  st.drop (st.length + 1 - maxsize)

/-- Modelled from the spec: `getOrCompute(key, compute)` of the
MetadataCache (§4.5): purge expired entries, return the stored value on a
hit without invoking `compute`; on a miss invoke `compute`, store the
result with `expiresAt = now + ttl` (evicting the oldest entries if
needed) and return it. The Bool of the result records whether `compute`
was invoked. -/
def getOrCompute (ttl maxsize : Nat) (st : List (CacheEntry V)) (now : Nat)
    (key : String) (compute : Unit → V) : V × List (CacheEntry V) × Bool :=
  let purged := purgeExpired now st
  match purged.find? (fun e => e.key == key) with
  | some e => (e.val, purged, false)
  | none =>
    let v := compute ()
    (v, evictToFit maxsize purged ++ [⟨key, v, now + ttl⟩], true)

/-- Modelled from the spec: `clear()` empties the entire store
unconditionally (§4.5). -/
def clearCache (V : Type) : List (CacheEntry V) := []

/-- `metadata_cache = TTLCache(maxsize=100, ttl=3600)` of main.py:
its TTL parameter. -/
def metadata_cache_ttl : Nat := 3600

/-- `metadata_cache = TTLCache(maxsize=100, ttl=3600)` of main.py:
its maxsize parameter. -/
def metadata_cache_maxsize : Nat := 100

/-- The store shared by the three `@cached(metadata_cache)` handlers,
keyed by the raw path input. -/
abbrev CacheStore := List (CacheEntry HandlerOut)

/-- `@cached(metadata_cache)` applied to `get_track_metadata`: look the
raw input up in the shared cache, else run the handler body and store its
response. -/
def cached_get_track_metadata (st : CacheStore) (now : Nat) (input : String)
    (ph : String → String) (post : PostRequest → TransportResponse) :
    HandlerOut × CacheStore :=
  let r := getOrCompute metadata_cache_ttl metadata_cache_maxsize st now input
    (fun _ => get_track_metadata input ph post)
  (r.1, r.2.1)

/-- `@cached(metadata_cache)` applied to `get_album_metadata`. -/
def cached_get_album_metadata (st : CacheStore) (now : Nat) (input : String)
    (args : List (String × String)) (cfg : FlaskConfig) (ph : String → String)
    (post : PostRequest → TransportResponse) : HandlerOut × CacheStore :=
  let r := getOrCompute metadata_cache_ttl metadata_cache_maxsize st now input
    (fun _ => get_album_metadata input args cfg ph post)
  (r.1, r.2.1)

/-- `@cached(metadata_cache)` applied to `get_playlist_metadata`. -/
def cached_get_playlist_metadata (st : CacheStore) (now : Nat) (input : String)
    (args : List (String × String)) (cfg : FlaskConfig) (ph : String → String)
    (post : PostRequest → TransportResponse) : HandlerOut × CacheStore :=
  let r := getOrCompute metadata_cache_ttl metadata_cache_maxsize st now input
    (fun _ => get_playlist_metadata input args cfg ph post)
  (r.1, r.2.1)

/-! ## Routing -/

/-- One registered Flask route: its rule string and the HTTP methods it
accepts. `@app.route` without a `methods=` argument accepts only GET
(plus the automatic HEAD and OPTIONS). -/
structure RouteRule where
  rule : String
  methods : List String

/-- The four routes registered in main.py, in registration order. None
declares `methods=`, so none accepts POST. -/
def appRoutes : List RouteRule :=
  [⟨"/track/<path:track_input>", ["GET", "HEAD", "OPTIONS"]⟩,
   ⟨"/album/<path:album_input>", ["GET", "HEAD", "OPTIONS"]⟩,
   ⟨"/playlist/<path:playlist_input>", ["GET", "HEAD", "OPTIONS"]⟩,
   ⟨"/<path:url>", ["GET", "HEAD", "OPTIONS"]⟩]

/-- Result of the catch-all route: either a metadata handler response or
the HTML usage document with its status code. -/
inductive RouteResult where
  | api (h : HandlerOut) : RouteResult
  | usage (status : Nat) : RouteResult

/-- `handle_full_url` of main.py, the `/<path:url>` catch-all: dispatch
on a substring match of `track` / `album` / `playlist` in the path to the
corresponding cached handler; otherwise return the usage document with
status 400. The cache store is threaded through. -/
def handle_full_url (url : String) (st : CacheStore) (now : Nat)
    (args : List (String × String)) (cfg : FlaskConfig) (ph : String → String)
    (post : PostRequest → TransportResponse) : RouteResult × CacheStore :=
  if containsSub "track".data url.data then
    let r := cached_get_track_metadata st now url ph post
    (.api r.1, r.2)
  else if containsSub "album".data url.data then
    let r := cached_get_album_metadata st now url args cfg ph post
    (.api r.1, r.2)
  else if containsSub "playlist".data url.data then
    let r := cached_get_playlist_metadata st now url args cfg ph post
    (.api r.1, r.2)
  else (.usage 400, st)

/-! ## Helper lemmas -/

/-- Unfolding of the pagination while loop when the guard holds. -/
theorem loopTrace_pos (fetch : Int → Chunk) (ul : Int) (hul : 0 < ul)
    (tc offset : Int) (h : offset < tc) :
    loopTrace fetch ul hul tc offset =
      (offset, fetch offset) :: loopTrace fetch ul hul tc (offset + ul) := by
  rw [loopTrace]
  simp [h]

/-- Unfolding of the pagination while loop when the guard fails. -/
theorem loopTrace_neg (fetch : Int → Chunk) (ul : Int) (hul : 0 < ul)
    (tc offset : Int) (h : ¬ offset < tc) :
    loopTrace fetch ul hul tc offset = [] := by
  rw [loopTrace]
  simp [h]

/-- Closed form for the offsets fetched by the pagination while loop:
an arithmetic progression starting at the entry offset with step `ul`. -/
theorem loopTrace_offsets (fetch : Int → Chunk) (ul : Int) (hul : 0 < ul)
    (tc : Int) (off : Int) :
    ∃ n : Nat, (loopTrace fetch ul hul tc off).map Prod.fst
      = (List.range n).map (fun i : Nat => off + (i : Int) * ul) := by
  by_cases h : off < tc
  · obtain ⟨n, hn⟩ := loopTrace_offsets fetch ul hul tc (off + ul)
    refine ⟨n + 1, ?_⟩
    rw [loopTrace_pos _ _ _ _ _ h, List.map_cons, hn, List.range_succ_eq_map,
      List.map_cons, List.map_map]
    refine congrArg₂ _ (by simp) ?_
    refine List.map_congr_left (fun a _ => ?_)
    simp only [Function.comp_apply]
    push_cast
    ring
  · refine ⟨0, ?_⟩
    rw [loopTrace_neg _ _ _ _ _ h]
    simp
termination_by (tc - off).toNat
decreasing_by omega

/-- Membership in the offsets fetched by the while loop: exactly the
progression values below `tc`. -/
theorem loopTrace_mem_iff (fetch : Int → Chunk) (ul : Int) (hul : 0 < ul)
    (tc : Int) (off : Int) (x : Int) :
    x ∈ (loopTrace fetch ul hul tc off).map Prod.fst
      ↔ ∃ k : Nat, x = off + (k : Int) * ul ∧ x < tc := by
  by_cases h : off < tc
  · rw [loopTrace_pos _ _ _ _ _ h, List.map_cons, List.mem_cons,
      loopTrace_mem_iff fetch ul hul tc (off + ul) x]
    constructor
    · rintro (rfl | ⟨k, hk, hx⟩)
      · exact ⟨0, by simp, h⟩
      · exact ⟨k + 1, by rw [hk]; push_cast; ring, hx⟩
    · rintro ⟨k, rfl, hx⟩
      cases k with
      | zero => left; simp
      | succ k => right; exact ⟨k, by push_cast; ring, hx⟩
  · rw [loopTrace_neg _ _ _ _ _ h]
    simp only [List.map_nil, List.not_mem_nil, false_iff, not_exists]
    rintro k ⟨rfl, hx⟩
    have hk : (0 : Int) ≤ (k : Int) * ul :=
      mul_nonneg (Int.natCast_nonneg k) (le_of_lt hul)
    omega
termination_by (tc - off).toNat
decreasing_by omega

/-- Claim C7: in every pagination run the offsets passed to fetch form
the arithmetic progression 0, UL, 2·UL, ... (monotonically increasing by
exactly the fixed limit), no offset is repeated, and a loop step
`i ≥ 1` is fetched exactly when its offset is still below `totalCount`
(the fetch at offset 0 is the unconditional first fetch, see the first
chunk property). -/
theorem pagination_offset_invariant (fetch : Int → Chunk) (ul : Int) (hul : 0 < ul) :
    ((paginateTrace fetch ul hul).map Prod.fst
        = (List.range (paginateTrace fetch ul hul).length).map (fun i : Nat => (i : Int) * ul))
    ∧ ((paginateTrace fetch ul hul).map Prod.fst).Nodup
    ∧ (∀ i : Nat, 1 ≤ i →
        ((i : Int) * ul ∈ (paginateTrace fetch ul hul).map Prod.fst
          ↔ (i : Int) * ul < (fetch 0).totalCount)) := by
  have hinj : Function.Injective (fun i : Nat => (i : Int) * ul) := by
    intro a b hab
    have := mul_right_cancel₀ (ne_of_gt hul) hab
    exact_mod_cast this
  have hbig : ∀ i : Nat, 1 ≤ i → ul ≤ (i : Int) * ul := by
    intro i hi
    calc ul = 1 * ul := (one_mul ul).symm
    _ ≤ (i : Int) * ul := by
        apply mul_le_mul_of_nonneg_right _ (le_of_lt hul)
        exact_mod_cast hi
  unfold paginateTrace
  by_cases h : (fetch 0).totalCount ≤ ul
  · rw [if_pos h]
    refine ⟨by simp [List.range_succ], by simp, ?_⟩
    intro i hi
    simp only [List.map_cons, List.map_nil, List.mem_singleton]
    constructor
    · intro h0
      have := hbig i hi
      omega
    · intro hlt
      have := hbig i hi
      omega
  · rw [if_neg h]
    obtain ⟨n, hn⟩ := loopTrace_offsets fetch ul hul (fetch 0).totalCount ul
    have hform : ((0, fetch 0) :: loopTrace fetch ul hul (fetch 0).totalCount ul).map Prod.fst
        = (List.range (n + 1)).map (fun i : Nat => (i : Int) * ul) := by
      rw [List.map_cons, hn, List.range_succ_eq_map, List.map_cons, List.map_map]
      refine congrArg₂ _ (by simp) ?_
      refine List.map_congr_left (fun a _ => ?_)
      simp only [Function.comp_apply]
      push_cast
      ring
    have hlen : ((0, fetch 0) :: loopTrace fetch ul hul (fetch 0).totalCount ul).length = n + 1 := by
      have := congrArg List.length hform
      simpa using this
    refine ⟨by rw [hlen, hform], ?_, ?_⟩
    · rw [hform]
      exact (List.nodup_range n.succ).map hinj
    · intro i hi
      rw [List.map_cons, List.mem_cons, loopTrace_mem_iff]
      constructor
      · rintro (h0 | ⟨k, hk, hx⟩)
        · have := hbig i hi
          simp only [Prod.fst] at h0
          omega
        · exact hx
      · intro hlt
        right
        refine ⟨i - 1, ?_, hlt⟩
        have hcast : ((i - 1 : Nat) : Int) = (i : Int) - 1 := by
          have : (1 : Nat) ≤ i := hi
          push_cast [this]
          ring
        rw [hcast]
        ring

/-- Claim C7 witness: the invariant instantiated on the model upstream
with 120 items and page size 50. -/
theorem pagination_offset_invariant_witness :
    ((paginateTrace (stdFetch 120 50) 50 (by norm_num)).map Prod.fst).Nodup
    ∧ ((3 : Int) * 50 ∈ (paginateTrace (stdFetch 120 50) 50 (by norm_num)).map Prod.fst
        ↔ (3 : Int) * 50 < (stdFetch 120 50 0).totalCount) := by
  have h := pagination_offset_invariant (stdFetch 120 50) 50 (by norm_num)
  exact ⟨h.2.1, h.2.2 3 (by norm_num)⟩

/-- Claim C10: the first fetch (offset 0) is issued and its chunk
yielded unconditionally, before totalCount is compared to the page size:
every successful pagination run yields at least one chunk, and for an
empty collection (totalCount = 0) exactly one chunk is yielded by exactly
one fetch, at offset 0. -/
theorem first_chunk_unconditional (fetch : Int → Chunk) (ul : Int) (hul : 0 < ul) :
    (paginateTrace fetch ul hul).head? = some (0, fetch 0)
    ∧ 1 ≤ (paginateTrace fetch ul hul).length
    ∧ ((fetch 0).totalCount = 0 → paginateTrace fetch ul hul = [(0, fetch 0)]) := by
  refine ⟨?_, ?_, ?_⟩
  · unfold paginateTrace
    by_cases h : (fetch 0).totalCount ≤ ul
    · rw [if_pos h]
      rfl
    · rw [if_neg h]
      rfl
  · unfold paginateTrace
    by_cases h : (fetch 0).totalCount ≤ ul
    · rw [if_pos h]
      simp
    · rw [if_neg h]
      simp
  · intro h0
    unfold paginateTrace
    rw [if_pos (by omega)]

/-- Claim C10 witness: an empty collection paginated with the playlist
page size yields exactly one chunk from one fetch. -/
theorem first_chunk_unconditional_witness :
    paginateTrace (stdFetch 0 343) 343 (by norm_num) = [(0, stdFetch 0 343 0)] :=
  (first_chunk_unconditional (stdFetch 0 343) 343 (by norm_num)).2.2 rfl

/-- Claim C6: with totalCount 120 and UPPER_LIMIT 50 the album paginator
yields chunks of sizes 50, 50, 20 at offsets 0, 50, 100; at the boundary
totalCount 343 with UPPER_LIMIT 343 the playlist paginator yields exactly
one chunk and issues no second fetch. -/
theorem pagination_chunk_sizes_and_boundary :
    (paginate_album_tracks (stdFetch 120 50)).map (fun p => p.2.items.length) = [50, 50, 20]
    ∧ (paginate_album_tracks (stdFetch 120 50)).map Prod.fst = [0, 50, 100]
    ∧ paginate_playlist (stdFetch 343 343) = [(0, stdFetch 343 343 0)] := by
  have htrace : paginate_album_tracks (stdFetch 120 50)
      = [(0, stdFetch 120 50 0), (50, stdFetch 120 50 50), (100, stdFetch 120 50 100)] := by
    simp only [paginate_album_tracks, paginateTrace]
    rw [if_neg (by decide : ¬ (stdFetch 120 50 0).totalCount ≤ (50 : Int)),
      loopTrace_pos _ _ _ _ _ (by decide), loopTrace_pos _ _ _ _ _ (by decide),
      loopTrace_neg _ _ _ _ _ (by decide)]
    norm_num
  refine ⟨?_, ?_, ?_⟩
  · rw [htrace]
    rfl
  · rw [htrace]
    rfl
  · simp only [paginate_playlist, paginateTrace]
    rw [if_pos (by decide : (stdFetch 343 343 0).totalCount ≤ (343 : Int))]

/-- A transport stub in which every request fails with error string
"timeout". -/
def timeoutPost : PostRequest → TransportResponse := fun _ => ⟨true, "timeout", .null⟩

/-- A transport stub in which every request succeeds with an empty JSON
object. -/
def okPost : PostRequest → TransportResponse := fun _ => ⟨false, "", .mapping []⟩

/-- A hash resolver stub. -/
def demoHash : String → String := fun _ => "d9b5ff"

/-- Claim C1 counterexample: a resource object whose ResourceID is unset
(constructed from a falsy identifier, so the slotted attribute was never
assigned) raises AttributeError from the `if not self.track_id` read, not
the ValidationError (`ValueError`) the claim names. No transport call is
attempted. -/
theorem unset_id_attribute_error_cex :
    get_track_info (publicTrackId "") demoHash okPost
      = (.error (.attributeError "PublicTrack object has no attribute track_id"), [])
    ∧ isValidationError (.attributeError "PublicTrack object has no attribute track_id") = false :=
  ⟨rfl, rfl⟩

/-- Claim C1 (amended): fetching a resource whose ResourceID is unset
fails before any transport call is attempted (the post call trace is
empty) for all three resource kinds; the error is the ValidationError
(`ValueError("<kind> ID not set")`) exactly when the id attribute holds
an empty string, while an id attribute that was never assigned
(constructed from `None` or `""`) raises AttributeError instead. -/
theorem unset_id_errors_before_transport
    (tid : Option String) (h : tid = none ∨ tid = some "")
    (limit offset : Int) (locale : String)
    (ph : String → String) (post : PostRequest → TransportResponse) :
    ((∃ e, (get_track_info tid ph post).1 = .error e)
        ∧ (get_track_info tid ph post).2 = [])
    ∧ ((∃ e, (get_album_info tid limit offset locale ph post).1 = .error e)
        ∧ (get_album_info tid limit offset locale ph post).2 = [])
    ∧ ((∃ e, (get_playlist_info tid limit offset ph post).1 = .error e)
        ∧ (get_playlist_info tid limit offset ph post).2 = [])
    ∧ (tid = some "" →
        (get_track_info tid ph post).1 = .error (.valueError "Track ID not set")
        ∧ (get_album_info tid limit offset locale ph post).1 = .error (.valueError "Album ID not set")
        ∧ (get_playlist_info tid limit offset ph post).1 = .error (.valueError "Playlist ID not set")) := by
  rcases h with rfl | rfl <;>
    simp [get_track_info, get_album_info, get_playlist_info]

/-- Claim C1 witness: concrete unset identifiers for both unset shapes,
evaluated with a concrete transport; no request is issued. -/
theorem unset_id_errors_before_transport_witness :
    (get_track_info (some "") demoHash okPost).2 = []
    ∧ (get_track_info (some "") demoHash okPost).1 = .error (.valueError "Track ID not set")
    ∧ (get_track_info none demoHash okPost).2 = [] := by
  have h1 := unset_id_errors_before_transport (some "") (Or.inr rfl) 25 0 "en" demoHash okPost
  have h2 := unset_id_errors_before_transport none (Or.inl rfl) 25 0 "en" demoHash okPost
  exact ⟨h1.1.2, (h1.2.2.2 rfl).1, h2.1.2⟩

/-- Claim C8: for a fetch on a resource with its id set, a transport
failure raises the resource-specific error carrying the transport's
error string in its detail; a non-mapping payload raises the
resource-specific "Invalid JSON" error; otherwise the payload mapping is
returned. Stated for all three resource kinds. -/
theorem fetch_error_classification
    (tid : String) (ht : ¬ tid = "")
    (limit offset : Int) (locale : String)
    (ph : String → String) (post : PostRequest → TransportResponse) :
    ((post (trackRequest tid ph)).fail = true →
      get_track_info (some tid) ph post
        = (.error (.trackError "Could not get track info"
            (some (post (trackRequest tid ph)).errorString)), [trackRequest tid ph]))
    ∧ ((post (trackRequest tid ph)).fail = false →
        ∀ kvs, (post (trackRequest tid ph)).response = .mapping kvs →
          get_track_info (some tid) ph post = (.ok (.mapping kvs), [trackRequest tid ph]))
    ∧ ((post (trackRequest tid ph)).fail = false →
        isMapping (post (trackRequest tid ph)).response = false →
          get_track_info (some tid) ph post
            = (.error (.trackError "Invalid JSON" none), [trackRequest tid ph]))
    ∧ ((post (albumRequest tid limit offset locale ph)).fail = true →
      get_album_info (some tid) limit offset locale ph post
        = (.error (.albumError "Could not get album info"
            (some (post (albumRequest tid limit offset locale ph)).errorString)),
           [albumRequest tid limit offset locale ph]))
    ∧ ((post (albumRequest tid limit offset locale ph)).fail = false →
        ∀ kvs, (post (albumRequest tid limit offset locale ph)).response = .mapping kvs →
          get_album_info (some tid) limit offset locale ph post
            = (.ok (.mapping kvs), [albumRequest tid limit offset locale ph]))
    ∧ ((post (albumRequest tid limit offset locale ph)).fail = false →
        isMapping (post (albumRequest tid limit offset locale ph)).response = false →
          get_album_info (some tid) limit offset locale ph post
            = (.error (.albumError "Invalid JSON" none), [albumRequest tid limit offset locale ph]))
    ∧ ((post (playlistRequest tid limit offset ph)).fail = true →
      get_playlist_info (some tid) limit offset ph post
        = (.error (.playlistError "Could not get playlist info"
            (some (post (playlistRequest tid limit offset ph)).errorString)),
           [playlistRequest tid limit offset ph]))
    ∧ ((post (playlistRequest tid limit offset ph)).fail = false →
        ∀ kvs, (post (playlistRequest tid limit offset ph)).response = .mapping kvs →
          get_playlist_info (some tid) limit offset ph post
            = (.ok (.mapping kvs), [playlistRequest tid limit offset ph]))
    ∧ ((post (playlistRequest tid limit offset ph)).fail = false →
        isMapping (post (playlistRequest tid limit offset ph)).response = false →
          get_playlist_info (some tid) limit offset ph post
            = (.error (.playlistError "Invalid JSON" none), [playlistRequest tid limit offset ph])) := by
  refine ⟨?_, ?_, ?_, ?_, ?_, ?_, ?_, ?_, ?_⟩
  · intro hf
    simp [get_track_info, ht, hf]
  · intro hf kvs hkvs
    simp [get_track_info, ht, hf, hkvs]
  · intro hf hm
    simp only [get_track_info, if_neg ht]
    cases hresp : (post (trackRequest tid ph)).response <;>
      simp_all [isMapping]
  · intro hf
    simp [get_album_info, ht, hf]
  · intro hf kvs hkvs
    simp [get_album_info, ht, hf, hkvs]
  · intro hf hm
    simp only [get_album_info, if_neg ht]
    cases hresp : (post (albumRequest tid limit offset locale ph)).response <;>
      simp_all [isMapping]
  · intro hf
    simp [get_playlist_info, ht, hf]
  · intro hf kvs hkvs
    simp [get_playlist_info, ht, hf, hkvs]
  · intro hf hm
    simp only [get_playlist_info, if_neg ht]
    cases hresp : (post (playlistRequest tid limit offset ph)).response <;>
      simp_all [isMapping]

/-- Claim C8 witness: a concrete id and a transport that fails with
error string "timeout"; the raised TrackError carries "timeout" in its
detail. -/
theorem fetch_error_classification_witness :
    get_track_info (some "4uLU6hMCjMI75M1A2tKUQC") demoHash timeoutPost
      = (.error (.trackError "Could not get track info" (some "timeout")),
         [trackRequest "4uLU6hMCjMI75M1A2tKUQC" demoHash]) := by
  have h := fetch_error_classification "4uLU6hMCjMI75M1A2tKUQC" (by decide)
    25 0 "en" demoHash timeoutPost
  exact h.1 rfl

/-- Claim C5: with the metadata cache parameters (ttl 3600, maxsize 100),
two lookups of the same key whose first is a miss invoke the compute
function exactly once when the second lookup falls within the TTL window
(the second returns the stored value without invoking its compute
function); a lookup after TTL expiry invokes compute again. -/
theorem cache_hit_single_invocation
    (V : Type) (st0 : List (CacheEntry V)) (key : String) (f g : Unit → V)
    (now1 now2 : Nat)
    (hfresh : (purgeExpired now1 st0).find? (fun e => e.key == key) = none)
    (r1 : V × List (CacheEntry V) × Bool)
    (hr1 : r1 = getOrCompute metadata_cache_ttl metadata_cache_maxsize st0 now1 key f)
    (r2 : V × List (CacheEntry V) × Bool)
    (hr2 : r2 = getOrCompute metadata_cache_ttl metadata_cache_maxsize r1.2.1 now2 key g) :
    r1.2.2 = true ∧ r1.1 = f ()
    ∧ (now2 < now1 + metadata_cache_ttl → r2.2.2 = false ∧ r2.1 = f ())
    ∧ (now1 + metadata_cache_ttl ≤ now2 → r2.2.2 = true ∧ r2.1 = g ()) := by
  subst hr2
  subst hr1
  have hA : ∀ e ∈ evictToFit metadata_cache_maxsize (purgeExpired now1 st0),
      ¬ (e.key == key) = true := by
    intro e he
    exact List.find?_eq_none.mp hfresh e (List.drop_subset _ _ he)
  have h1 : getOrCompute metadata_cache_ttl metadata_cache_maxsize st0 now1 key f
      = (f (), evictToFit metadata_cache_maxsize (purgeExpired now1 st0)
          ++ [⟨key, f (), now1 + metadata_cache_ttl⟩], true) := by
    simp only [getOrCompute]
    rw [hfresh]
  rw [h1]
  refine ⟨rfl, rfl, ?_, ?_⟩
  · intro hlt
    have h2 : purgeExpired now2
        (evictToFit metadata_cache_maxsize (purgeExpired now1 st0)
          ++ [⟨key, f (), now1 + metadata_cache_ttl⟩])
        = purgeExpired now2 (evictToFit metadata_cache_maxsize (purgeExpired now1 st0))
          ++ [⟨key, f (), now1 + metadata_cache_ttl⟩] := by
      unfold purgeExpired
      rw [List.filter_append]
      congr 1
      simp [hlt]
    have hnone : (purgeExpired now2
        (evictToFit metadata_cache_maxsize (purgeExpired now1 st0))).find?
          (fun e => e.key == key) = none :=
      List.find?_eq_none.mpr (fun e he => hA e (List.mem_of_mem_filter he))
    have hfind : (purgeExpired now2
        (evictToFit metadata_cache_maxsize (purgeExpired now1 st0))
          ++ [(⟨key, f (), now1 + metadata_cache_ttl⟩ : CacheEntry V)]).find?
          (fun e => e.key == key)
        = some ⟨key, f (), now1 + metadata_cache_ttl⟩ := by
      rw [List.find?_append, hnone]
      simp
    have h3 : getOrCompute metadata_cache_ttl metadata_cache_maxsize
        (evictToFit metadata_cache_maxsize (purgeExpired now1 st0)
          ++ [⟨key, f (), now1 + metadata_cache_ttl⟩]) now2 key g
        = (f (), purgeExpired now2
            (evictToFit metadata_cache_maxsize (purgeExpired now1 st0))
              ++ [⟨key, f (), now1 + metadata_cache_ttl⟩], false) := by
      simp only [getOrCompute]
      rw [h2, hfind]
    rw [h3]
    exact ⟨rfl, rfl⟩
  · intro hge
    have h2 : purgeExpired now2
        (evictToFit metadata_cache_maxsize (purgeExpired now1 st0)
          ++ [⟨key, f (), now1 + metadata_cache_ttl⟩])
        = purgeExpired now2 (evictToFit metadata_cache_maxsize (purgeExpired now1 st0)) := by
      unfold purgeExpired
      rw [List.filter_append]
      have : ¬ now2 < now1 + metadata_cache_ttl := by omega
      simp [this]
    have hnone : (purgeExpired now2
        (evictToFit metadata_cache_maxsize (purgeExpired now1 st0))).find?
          (fun e => e.key == key) = none :=
      List.find?_eq_none.mpr (fun e he => hA e (List.mem_of_mem_filter he))
    have h3 : getOrCompute metadata_cache_ttl metadata_cache_maxsize
        (evictToFit metadata_cache_maxsize (purgeExpired now1 st0)
          ++ [⟨key, f (), now1 + metadata_cache_ttl⟩]) now2 key g
        = (g (), evictToFit metadata_cache_maxsize (purgeExpired now2
            (evictToFit metadata_cache_maxsize (purgeExpired now1 st0)))
              ++ [⟨key, g (), now2 + metadata_cache_ttl⟩], true) := by
      simp only [getOrCompute]
      rw [h2, hnone]
    rw [h3]
    exact ⟨rfl, rfl⟩

/-- Claim C5 witness: an empty store, a hit 10 seconds after the miss
(compute not invoked again, value reused), and a lookup at expiry
(compute invoked again). -/
theorem cache_hit_single_invocation_witness :
    (getOrCompute metadata_cache_ttl metadata_cache_maxsize
      ([] : List (CacheEntry Nat)) 0 "4uLU" (fun _ => 7)).2.2 = true
    ∧ (getOrCompute metadata_cache_ttl metadata_cache_maxsize
        (getOrCompute metadata_cache_ttl metadata_cache_maxsize
          ([] : List (CacheEntry Nat)) 0 "4uLU" (fun _ => 7)).2.1 10 "4uLU"
        (fun _ => 8)).2.2 = false
    ∧ (getOrCompute metadata_cache_ttl metadata_cache_maxsize
        (getOrCompute metadata_cache_ttl metadata_cache_maxsize
          ([] : List (CacheEntry Nat)) 0 "4uLU" (fun _ => 7)).2.1 10 "4uLU"
        (fun _ => 8)).1 = 7
    ∧ (getOrCompute metadata_cache_ttl metadata_cache_maxsize
        (getOrCompute metadata_cache_ttl metadata_cache_maxsize
          ([] : List (CacheEntry Nat)) 0 "4uLU" (fun _ => 7)).2.1 3600 "4uLU"
        (fun _ => 8)).2.2 = true := by
  have hw := cache_hit_single_invocation Nat [] "4uLU" (fun _ => 7) (fun _ => 8) 0 10
    (by simp [purgeExpired]) _ rfl _ rfl
  have he := cache_hit_single_invocation Nat [] "4uLU" (fun _ => 7) (fun _ => 8) 0 3600
    (by simp [purgeExpired]) _ rfl _ rfl
  have hlt : (10 : Nat) < 0 + metadata_cache_ttl := by norm_num [metadata_cache_ttl]
  have hge : (0 : Nat) + metadata_cache_ttl ≤ 3600 := by norm_num [metadata_cache_ttl]
  exact ⟨hw.1, (hw.2.2.1 hlt).1, (hw.2.2.1 hlt).2, (he.2.2.2 hge).1⟩

/-- When the track id is set, the fetch issues exactly its one request,
whatever the transport answers. -/
theorem get_track_info_reqs (tid : String) (h : ¬ tid = "")
    (ph : String → String) (post : PostRequest → TransportResponse) :
    (get_track_info (some tid) ph post).2 = [trackRequest tid ph] := by
  simp only [get_track_info, if_neg h]
  cases hf : (post (trackRequest tid ph)).fail
  · cases (post (trackRequest tid ph)).response <;> rfl
  · rfl

/-- When the album id is set, the fetch issues exactly its one request. -/
theorem get_album_info_reqs (aid : String) (h : ¬ aid = "")
    (limit offset : Int) (locale : String)
    (ph : String → String) (post : PostRequest → TransportResponse) :
    (get_album_info (some aid) limit offset locale ph post).2
      = [albumRequest aid limit offset locale ph] := by
  simp only [get_album_info, if_neg h]
  cases hf : (post (albumRequest aid limit offset locale ph)).fail
  · cases (post (albumRequest aid limit offset locale ph)).response <;> rfl
  · rfl

/-- When the playlist id is set, the fetch issues exactly its one
request. -/
theorem get_playlist_info_reqs (pid : String) (h : ¬ pid = "")
    (limit offset : Int)
    (ph : String → String) (post : PostRequest → TransportResponse) :
    (get_playlist_info (some pid) limit offset ph post).2
      = [playlistRequest pid limit offset ph] := by
  simp only [get_playlist_info, if_neg h]
  cases hf : (post (playlistRequest pid limit offset ph)).fail
  · cases (post (playlistRequest pid limit offset ph)).response <;> rfl
  · rfl

/-- Claim C2 (code bug evidence): the album and playlist handlers never
read the request's query string. For every query string `args` —
including one carrying limit=-1 — the album handler issues exactly one
upstream fetch with limit 50 and offset 0 (playlist: limit 343,
offset 0), because limit and offset are read from `app.config`, which
holds no such keys at runtime; the whole response is independent of
`args`, so query-driven pagination can never trigger. -/
theorem handlers_ignore_query_args
    (args args2 : List (String × String)) (ph : String → String)
    (post : PostRequest → TransportResponse) :
    (get_album_metadata "4aawyAB9vmqN3uQ7FjRGTy" args runtimeConfig ph post).reqs
      = [albumRequest "4aawyAB9vmqN3uQ7FjRGTy" 50 0 "en" ph]
    ∧ (get_playlist_metadata "37i9dQZF1DXcBWIGoYBM5M" args runtimeConfig ph post).reqs
      = [playlistRequest "37i9dQZF1DXcBWIGoYBM5M" 343 0 ph]
    ∧ get_album_metadata "4aawyAB9vmqN3uQ7FjRGTy" args runtimeConfig ph post
      = get_album_metadata "4aawyAB9vmqN3uQ7FjRGTy"
          [("limit", "-1"), ("offset", "5")] runtimeConfig ph post
    ∧ get_album_metadata "4aawyAB9vmqN3uQ7FjRGTy" args runtimeConfig ph post
      = get_album_metadata "4aawyAB9vmqN3uQ7FjRGTy" args2 runtimeConfig ph post := by
  refine ⟨?_, ?_, rfl, rfl⟩
  · have hreq := get_album_info_reqs "4aawyAB9vmqN3uQ7FjRGTy" (by decide) 50 0 "en" ph post
    simp only [get_album_metadata]
    rw [show publicAlbumId (extract_spotify_id "4aawyAB9vmqN3uQ7FjRGTy")
        = some "4aawyAB9vmqN3uQ7FjRGTy" from rfl]
    rw [show (runtimeConfig.limit.getD 50 : Int) = 50 from rfl,
      show (runtimeConfig.offset.getD 0 : Int) = 0 from rfl,
      show runtimeConfig.locale.getD "en" = "en" from rfl]
    rw [if_neg (by decide : ¬ ((50 : Int) = -1))]
    rcases hX : get_album_info (some "4aawyAB9vmqN3uQ7FjRGTy") 50 0 "en" ph post
      with ⟨res, reqs⟩
    rw [hX] at hreq
    cases res <;> exact hreq
  · have hreq := get_playlist_info_reqs "37i9dQZF1DXcBWIGoYBM5M" (by decide) 343 0 ph post
    simp only [get_playlist_metadata]
    rw [show publicPlaylistId (extract_spotify_id "37i9dQZF1DXcBWIGoYBM5M")
        = some "37i9dQZF1DXcBWIGoYBM5M" from rfl]
    rw [show (runtimeConfig.limit.getD 343 : Int) = 343 from rfl,
      show (runtimeConfig.offset.getD 0 : Int) = 0 from rfl]
    rw [if_neg (by decide : ¬ ((343 : Int) = -1))]
    rcases hX : get_playlist_info (some "37i9dQZF1DXcBWIGoYBM5M") 343 0 ph post
      with ⟨res, reqs⟩
    rw [hX] at hreq
    cases res <;> exact hreq

/-- A demo cache store holding one previously cached response. -/
def demoStore : CacheStore :=
  [⟨"4uLU6hMCjMI75M1A2tKUQC", ⟨200, .mapping [], []⟩, 3600⟩]

/-- Claim C3 counterexample: there is no POST /clear operation — no
registered route accepts POST at all — and a request for the path
"clear" falls to the catch-all, which returns the usage document with
status 400 (not a success object) and leaves the cache store exactly as
it was: the previously cached key is still served from cache. -/
theorem no_post_clear_route_cex :
    appRoutes.all (fun r => !(r.methods.contains "POST")) = true
    ∧ handle_full_url "clear" demoStore 10 [] runtimeConfig demoHash okPost
        = (.usage 400, demoStore) :=
  ⟨rfl, rfl⟩

/-- Claim C3 (amended): the HTTP surface exposes no clear operation.
Every registered route accepts only GET/HEAD/OPTIONS, and a path
containing none of track/album/playlist is answered by the catch-all
with the usage document and status 400, with the cache store returned
unchanged — previously cached keys keep their entries, and nothing ever
empties the store. -/
theorem no_clear_operation
    (url : String) (st : CacheStore) (now : Nat) (args : List (String × String))
    (cfg : FlaskConfig) (ph : String → String) (post : PostRequest → TransportResponse)
    (h1 : containsSub "track".data url.data = false)
    (h2 : containsSub "album".data url.data = false)
    (h3 : containsSub "playlist".data url.data = false) :
    (∀ r ∈ appRoutes, r.methods.contains "POST" = false)
    ∧ handle_full_url url st now args cfg ph post = (.usage 400, st) := by
  constructor
  · decide
  · simp [handle_full_url, h1, h2, h3]

/-- Claim C3 witness: the path "clear" with a populated store. -/
theorem no_clear_operation_witness :
    handle_full_url "clear" demoStore 10 [] runtimeConfig demoHash okPost
        = (.usage 400, demoStore)
    ∧ (∀ r ∈ appRoutes, r.methods.contains "POST" = false) := by
  have h := no_clear_operation "clear" demoStore 10 [] runtimeConfig demoHash okPost
    rfl rfl rfl
  exact ⟨h.2, h.1⟩

/-- Claim C4 counterexample: a fetch failing with the ValidationError
(empty track id, as for the path "track/") is surfaced with status 404,
not 400 as the claim states. -/
theorem validation_error_surfaces_404_cex :
    (get_track_metadata "track/" demoHash okPost).status = 404
    ∧ (get_track_metadata "track/" demoHash okPost).body
        = .mapping [("error", .str "Track ID not set")]
    ∧ ((get_track_metadata "track/" demoHash okPost).status = 400 → False) :=
  ⟨rfl, rfl, by decide⟩

/-- Claim C4 (amended): every error reaching the HTTP boundary of the
three metadata handlers is serialized as a JSON body whose `error` field
holds the exception's message, but always with status 404, regardless of
the error's kind — ValidationError, resource errors and unclassified
errors alike; the handlers only ever answer 200 or 404, never 400 or
500. -/
theorem handler_errors_serialize_404
    (input : String) (args : List (String × String)) (cfg : FlaskConfig)
    (ph : String → String) (post : PostRequest → TransportResponse) (e : PyErr)
    (he : (get_track_info (publicTrackId (extract_spotify_id input)) ph post).1
      = .error e) :
    (get_track_metadata input ph post).status = 404
    ∧ (get_track_metadata input ph post).body = .mapping [("error", .str (pyErrStr e))]
    ∧ ((get_track_metadata input ph post).status = 200
        ∨ (get_track_metadata input ph post).status = 404)
    ∧ ((get_album_metadata input args cfg ph post).status = 200
        ∨ (get_album_metadata input args cfg ph post).status = 404)
    ∧ ((get_playlist_metadata input args cfg ph post).status = 200
        ∨ (get_playlist_metadata input args cfg ph post).status = 404) := by
  have htrack : get_track_metadata input ph post
      = ⟨404, errorJson e,
          (get_track_info (publicTrackId (extract_spotify_id input)) ph post).2⟩ := by
    unfold get_track_metadata
    rcases hX : get_track_info (publicTrackId (extract_spotify_id input)) ph post
      with ⟨res, reqs⟩
    rw [hX] at he
    simp only at he
    subst he
    rfl
  refine ⟨by rw [htrack], by rw [htrack]; rfl, by rw [htrack]; right; rfl, ?_, ?_⟩
  · simp only [get_album_metadata]
    split <;> (repeat' split) <;> simp
  · simp only [get_playlist_metadata]
    split <;> (repeat' split) <;> simp

/-- Claim C4 witness: the path "track/" (empty id after the constructor
split) with a concrete transport: the ValidationError is serialized as a
404 error body. -/
theorem handler_errors_serialize_404_witness :
    (get_track_metadata "track/" demoHash timeoutPost).status = 404
    ∧ (get_track_metadata "track/" demoHash timeoutPost).body
        = .mapping [("error", .str (pyErrStr (.valueError "Track ID not set")))] := by
  have h := handler_errors_serialize_404 "track/" [] runtimeConfig demoHash timeoutPost
    (.valueError "Track ID not set") rfl
  exact ⟨h.1, h.2.1⟩

/-- A pattern whose literal contains a dot cannot match at a position
whose remaining input contains no dot. -/
theorem matchAt_none_no_dot (lit cs : List Char) (hdot : '.' ∈ lit)
    (hcs : ∀ c ∈ cs, ¬ c = '.') : matchAt lit cs = none := by
  by_cases hp : lit.isPrefixOf cs
  · exfalso
    have hsub : lit <+: cs := List.isPrefixOf_iff_prefix.mp hp
    exact hcs '.' (hsub.subset hdot) rfl
  · simp [matchAt, hp]

/-- A pattern whose literal contains a dot finds no match anywhere in a
dot-free input. -/
theorem searchCapture_none_no_dot (lit : List Char) (hdot : '.' ∈ lit) :
    ∀ cs : List Char, (∀ c ∈ cs, ¬ c = '.') → searchCapture lit cs = none := by
  intro cs
  induction cs with
  | nil =>
    intro h
    simpa [searchCapture] using matchAt_none_no_dot lit [] hdot h
  | cons c rest ih =>
    intro h
    simp only [searchCapture]
    rw [matchAt_none_no_dot lit (c :: rest) hdot h]
    exact ih (fun x hx => h x (List.mem_cons_of_mem c hx))

/-- A match at the current position short-circuits the search. -/
theorem searchCapture_of_matchAt (lit cs cap : List Char)
    (h : matchAt lit cs = some cap) : searchCapture lit cs = some cap := by
  cases cs with
  | nil => simpa [searchCapture] using h
  | cons c rest =>
    simp only [searchCapture]
    rw [h]

/-- At the position where the literal matches, the capture is exactly the
22 alphanumeric characters that follow. -/
theorem matchAt_self_append (lit idc s : List Char) (hlen : idc.length = 22)
    (halnum : idc.all isAlnumChar = true) :
    matchAt lit (lit ++ (idc ++ s)) = some idc := by
  have hpre : lit.isPrefixOf (lit ++ (idc ++ s)) = true :=
    List.isPrefixOf_iff_prefix.mpr (List.prefix_append _ _)
  simp only [matchAt, hpre, if_true, List.drop_left]
  rw [List.take_left' hlen]
  simp [hlen, halnum]

/-- Claim C9: a bare canonical 22-character id and any full resource URL
for the same id (with an arbitrary dot-free query or path suffix)
normalize to the identical ResourceID, for each of the three kinds; an
input matching no pattern (in particular any dot-free input) is returned
unchanged with no error; and the patterns are tried in the order track,
album, playlist: the first pattern that captures wins even when a
lower-priority pattern occurs earlier in the string. -/
theorem normalize_identity_and_fallback
    (id sfx : String)
    (hlen : id.data.length = 22)
    (halnum : id.data.all isAlnumChar = true)
    (hs : ∀ c ∈ sfx.data, ¬ c = '.') :
    extract_spotify_id ("https://open.spotify.com/track/" ++ id ++ sfx) = id
    ∧ extract_spotify_id ("https://open.spotify.com/album/" ++ id ++ sfx) = id
    ∧ extract_spotify_id ("https://open.spotify.com/playlist/" ++ id ++ sfx) = id
    ∧ extract_spotify_id id = id
    ∧ (∀ s : String, (∀ c ∈ s.data, ¬ c = '.') → extract_spotify_id s = s)
    ∧ extract_spotify_id
        "x.spotify.com/album/AAAAAAAAAAAAAAAAAAAAAA.spotify.com/track/BBBBBBBBBBBBBBBBBBBBBB"
      = "BBBBBBBBBBBBBBBBBBBBBB" := by
  have hid_nodot : ∀ c ∈ id.data, ¬ c = '.' := by
    intro c hc hcdot
    have halc := List.all_eq_true.mp halnum c hc
    rw [hcdot] at halc
    exact absurd halc (by decide)
  have htail_nodot : ∀ c ∈ id.data ++ sfx.data, ¬ c = '.' := by
    intro c hc
    rcases List.mem_append.mp hc with h | h
    · exact hid_nodot c h
    · exact hs c h
  have hfall : ∀ s : String, (∀ c ∈ s.data, ¬ c = '.') → extract_spotify_id s = s := by
    intro s hsd
    have h1 := searchCapture_none_no_dot trackPat (by decide) s.data hsd
    have h2 := searchCapture_none_no_dot albumPat (by decide) s.data hsd
    have h3 := searchCapture_none_no_dot playlistPat (by decide) s.data hsd
    simp only [extract_spotify_id, extractListId, h1, h2, h3]
  refine ⟨?_, ?_, ?_, hfall id hid_nodot, hfall, by decide⟩
  · have hT : searchCapture trackPat
        ("https://open.spotify.com/track/".data ++ (id.data ++ sfx.data))
        = some id.data := by
      rw [show searchCapture trackPat
          ("https://open.spotify.com/track/".data ++ (id.data ++ sfx.data))
          = searchCapture trackPat (trackPat ++ (id.data ++ sfx.data)) from rfl]
      exact searchCapture_of_matchAt _ _ _
        (matchAt_self_append trackPat id.data sfx.data hlen halnum)
    have hdata : ("https://open.spotify.com/track/" ++ id ++ sfx).data
        = "https://open.spotify.com/track/".data ++ (id.data ++ sfx.data) := by
      rw [show ("https://open.spotify.com/track/" ++ id ++ sfx).data
          = ("https://open.spotify.com/track/".data ++ id.data) ++ sfx.data from rfl,
        List.append_assoc]
    simp only [extract_spotify_id, extractListId, hdata, hT]
  · have hTn : searchCapture trackPat
        ("https://open.spotify.com/album/".data ++ (id.data ++ sfx.data)) = none := by
      rw [show searchCapture trackPat
          ("https://open.spotify.com/album/".data ++ (id.data ++ sfx.data))
          = searchCapture trackPat (id.data ++ sfx.data) from rfl]
      exact searchCapture_none_no_dot trackPat (by decide) _ htail_nodot
    have hA : searchCapture albumPat
        ("https://open.spotify.com/album/".data ++ (id.data ++ sfx.data))
        = some id.data := by
      rw [show searchCapture albumPat
          ("https://open.spotify.com/album/".data ++ (id.data ++ sfx.data))
          = searchCapture albumPat (albumPat ++ (id.data ++ sfx.data)) from rfl]
      exact searchCapture_of_matchAt _ _ _
        (matchAt_self_append albumPat id.data sfx.data hlen halnum)
    have hdata : ("https://open.spotify.com/album/" ++ id ++ sfx).data
        = "https://open.spotify.com/album/".data ++ (id.data ++ sfx.data) := by
      rw [show ("https://open.spotify.com/album/" ++ id ++ sfx).data
          = ("https://open.spotify.com/album/".data ++ id.data) ++ sfx.data from rfl,
        List.append_assoc]
    simp only [extract_spotify_id, extractListId, hdata, hTn, hA]
  · have hTn : searchCapture trackPat
        ("https://open.spotify.com/playlist/".data ++ (id.data ++ sfx.data)) = none := by
      rw [show searchCapture trackPat
          ("https://open.spotify.com/playlist/".data ++ (id.data ++ sfx.data))
          = searchCapture trackPat (id.data ++ sfx.data) from rfl]
      exact searchCapture_none_no_dot trackPat (by decide) _ htail_nodot
    have hAn : searchCapture albumPat
        ("https://open.spotify.com/playlist/".data ++ (id.data ++ sfx.data)) = none := by
      rw [show searchCapture albumPat
          ("https://open.spotify.com/playlist/".data ++ (id.data ++ sfx.data))
          = searchCapture albumPat (id.data ++ sfx.data) from rfl]
      exact searchCapture_none_no_dot albumPat (by decide) _ htail_nodot
    have hP : searchCapture playlistPat
        ("https://open.spotify.com/playlist/".data ++ (id.data ++ sfx.data))
        = some id.data := by
      rw [show searchCapture playlistPat
          ("https://open.spotify.com/playlist/".data ++ (id.data ++ sfx.data))
          = searchCapture playlistPat (playlistPat ++ (id.data ++ sfx.data)) from rfl]
      exact searchCapture_of_matchAt _ _ _
        (matchAt_self_append playlistPat id.data sfx.data hlen halnum)
    have hdata : ("https://open.spotify.com/playlist/" ++ id ++ sfx).data
        = "https://open.spotify.com/playlist/".data ++ (id.data ++ sfx.data) := by
      rw [show ("https://open.spotify.com/playlist/" ++ id ++ sfx).data
          = ("https://open.spotify.com/playlist/".data ++ id.data) ++ sfx.data from rfl,
        List.append_assoc]
    simp only [extract_spotify_id, extractListId, hdata, hTn, hAn, hP]

/-- Claim C9 witness: a concrete 22-character id as a bare token and in a
track URL carrying a query suffix. -/
theorem normalize_identity_and_fallback_witness :
    extract_spotify_id "https://open.spotify.com/track/4uLU6hMCjMI75M1A2tKUQC?si=q1" =
      "4uLU6hMCjMI75M1A2tKUQC"
    ∧ extract_spotify_id "4uLU6hMCjMI75M1A2tKUQC" = "4uLU6hMCjMI75M1A2tKUQC" := by
  have h := normalize_identity_and_fallback "4uLU6hMCjMI75M1A2tKUQC" "?si=q1"
    (by decide) (by decide) (by decide)
  exact ⟨h.1, h.2.2.2.1⟩
